import Mathlib

/-!
Shallow embedding of the Lead-Scoring-Bank repository core
(src/core/feature_builder.py and src/core/model_predictor.py),
together with theorems checking the specification's claims (C1-C10)
against the embedded code.

Strings are modelled as `List Char` (lower-level than `String` so that
character-by-character scanning, as the Python code does via `re`, is
directly expressible and decidable).  Python floats are modelled as `ℚ`;
Python ints as `ℤ`.  Python `dict` values flowing through a DataFrame cell
are modelled as `Option ℚ` (`some q` = a value `pd.to_numeric` coerces to
`q`; `none` = a value that coerces to NaN and is then filled with 0).
-/

namespace LeadScoring

/-! ## Generic string helpers (Python `str` behaviour) -/

/-- Python `str.lower()` (ASCII case folding suffices for the inputs here). -/
def lowerChars (s : List Char) : List Char := s.map Char.toLower

/-- Python whitespace test used by `str.strip()` / `str.split()`. -/
def isSpaceChar (c : Char) : Bool := c = ' ' || c = '\t' || c = '\n' || c = '\r'

/-- Python `str.strip()`: drop whitespace from both ends. -/
def stripChars (s : List Char) : List Char :=
  ((s.dropWhile isSpaceChar).reverse.dropWhile isSpaceChar).reverse

/-- Worker for `splitCount`, structurally recursive on a fuel argument so
that it reduces inside the kernel; `fuel ≥ s.length` always suffices
because every step consumes at least one character. -/
def splitCountFuel : Nat → List Char → Nat
  | 0, _ => 0
  | _, [] => 0
  | fuel + 1, c :: rest =>
    if isSpaceChar c then splitCountFuel fuel rest
    else 1 + splitCountFuel fuel (rest.dropWhile (fun d => !isSpaceChar d))

/-- Python `len(s.split())`: number of maximal nonempty whitespace-free runs. -/
def splitCount (s : List Char) : Nat := splitCountFuel s.length s

/-- Does `pat` occur in `s` starting at position `i`? -/
def matchAt (s pat : List Char) (i : Nat) : Bool :=
  pat.isPrefixOf (s.drop i)

/-- Python `pat in s` (plain substring containment). -/
def containsSub (s pat : List Char) : Bool :=
  (List.range (s.length + 1)).any (fun i => matchAt s pat i)

/-- Python `c in s` for a single character. -/
def containsChar (s : List Char) (c : Char) : Bool := s.contains c

/-- Worker for `replaceAll`, structurally recursive on a fuel argument so
that it reduces inside the kernel; `fuel ≥ s.length` always suffices
because every step consumes at least one character. -/
def replaceAllFuel (pat rep : List Char) : Nat → List Char → List Char
  | 0, s => s
  | _, [] => []
  | fuel + 1, c :: rest =>
    if pat ≠ [] ∧ pat.isPrefixOf (c :: rest) = true then
      rep ++ replaceAllFuel pat rep fuel ((c :: rest).drop pat.length)
    else
      c :: replaceAllFuel pat rep fuel rest

/-- Python `s.replace(pat, rep)` for nonempty `pat`: replace all
non-overlapping occurrences, scanning left to right. -/
def replaceAll (pat rep : List Char) (s : List Char) : List Char :=
  replaceAllFuel pat rep s.length s

/-- `\w` character class of Python `re` (ASCII fragment). -/
def wordChar (c : Char) : Bool := c.isAlphanum || c = '_'

/-- Match of a regex `\bpat\b` at position `i`, for a `pat` whose first and
last characters are word characters: the pattern occurs at `i`, the preceding
character (if any) is a non-word character, and the following character
(if any) is a non-word character. -/
def wordBoundedAt (s pat : List Char) (i : Nat) : Bool :=
  matchAt s pat i &&
  (i == 0 || !wordChar (s.getD (i - 1) ' ')) &&
  !wordChar (s.getD (i + pat.length) ' ')

/-- Python `re.search(r"\bpat\b", s)` for a word-charactered `pat`. -/
def containsWordB (s pat : List Char) : Bool :=
  (List.range (s.length + 1)).any (fun i => wordBoundedAt s pat i)

/-- Match of the regex `\bv\.p\.\b` at position `i`: since the final matched
character `.` is a non-word character, the trailing `\b` requires the NEXT
character to exist and be a word character. -/
def vpDotAt (s : List Char) (i : Nat) : Bool :=
  matchAt s ['v', '.', 'p', '.'] i &&
  (i == 0 || !wordChar (s.getD (i - 1) ' ')) &&
  wordChar (s.getD (i + 4) ' ')

/-- Python `re.search(r"\bv\.p\.\b", s)`. -/
def containsVpDot (s : List Char) : Bool :=
  (List.range (s.length + 1)).any (fun i => vpDotAt s i)

/-! ## Numeric parsing helpers -/

/-- Value of a digit run, most significant first. -/
def digitsToNat (ds : List Char) : Nat :=
  ds.foldl (fun a c => a * 10 + (c.toNat - '0'.toNat)) 0

/-- Rational addition, written through `mkRat` so that the kernel can
evaluate it; `qAdd_eq` below proves it is ordinary `+` on `ℚ`. -/
def qAdd (a b : ℚ) : ℚ := mkRat (a.num * b.den + b.num * a.den) (a.den * b.den)

/-- Division of a rational by a natural number, written through `mkRat`;
`qDivN_eq` below proves it is ordinary `/` on `ℚ` for nonzero `n`. -/
def qDivN (a : ℚ) (n : ℕ) : ℚ := mkRat a.num (a.den * n)

/-- Multiplication of a rational by an integer, written through `mkRat`;
`qMulZ_eq` below proves it is ordinary `*` on `ℚ`. -/
def qMulZ (a : ℚ) (k : ℤ) : ℚ := mkRat (a.num * k) a.den

/-- The rational value `ip.fp` of an integer digit run and a fractional
digit run (the exact value of the decimal literal Python `float` parses). -/
def ratOfDigits (sgn : ℤ) (ip fp : List Char) : ℚ :=
  mkRat (sgn * (digitsToNat ip * 10 ^ fp.length + digitsToNat fp)) (10 ^ fp.length)

/-- Python `float(s)` on the plain-decimal fragment the repository feeds it:
optional surrounding whitespace, optional sign, then `D+`, `D+.D*` or `.D+`.
(The exponent and inf/nan forms of `float` never arise from this code's
inputs and are not modelled.)  Returns `none` where `float` raises. -/
def parsePyFloat (s0 : List Char) : Option ℚ :=
  let s := stripChars s0
  let (sign, s1) : ℤ × List Char :=
    match s with
    | '-' :: rest => (-1, rest)
    | '+' :: rest => (1, rest)
    | _ => (1, s)
  let (d1, r1) := s1.span Char.isDigit
  match r1 with
  | [] => if d1 = [] then none else some (ratOfDigits sign d1 [])
  | '.' :: r2 =>
    let (d2, r3) := r2.span Char.isDigit
    if r3 = [] ∧ (d1 ≠ [] ∨ d2 ≠ []) then
      some (ratOfDigits sign d1 d2)
    else none
  | _ => none

/-- Python `int(q)` on a float: truncation toward zero
(`Int.tdiv` of the numerator by the denominator). -/
def intTrunc (q : ℚ) : ℤ := q.num.tdiv q.den

/-- First match of the regex `([0-9]*\.?[0-9]+)` in `s`, as a rational:
scan for the first position where either a digit occurs or a dot immediately
followed by a digit occurs, then take the maximal token
`digits [ "." digits ]` (resp. `"." digits`) from there. -/
def findFirstNum : List Char → Option ℚ
  | [] => none
  | c :: rest =>
    if c.isDigit then
      let (d1, r1) := (c :: rest).span Char.isDigit
      match r1 with
      | '.' :: r2 =>
        if (r2.headD ' ').isDigit then
          some (ratOfDigits 1 d1 (r2.takeWhile Char.isDigit))
        else some (ratOfDigits 1 d1 [])
      | _ => some (ratOfDigits 1 d1 [])
    else if c = '.' ∧ (rest.headD ' ').isDigit then
      some (ratOfDigits 1 [] (rest.takeWhile Char.isDigit))
    else findFirstNum rest

/-- Python `str.upper()` (ASCII). -/
def upperChars (s : List Char) : List Char := s.map Char.toUpper

/-- Booleans to the 0/1 integers the feature row stores (`int(bool(...))`). -/
def b2i (b : Bool) : ℤ := if b then 1 else 0

/-! ## Data model of the inputs (feature_builder.py) -/

/-- One entry of `linkedin_data["experience"]`.  A missing `title` key is
modelled as the empty string (both are falsy for `e.get("title")`);
`is_current` is the truthiness of `e.get("is_current", False)`. -/
structure Experience where
  title : String
  is_current : Bool
deriving DecidableEq

/-- `linkedin_data["basic_info"]`; a missing `headline` is the empty string. -/
structure BasicInfo where
  headline : String
deriving DecidableEq

/-- The LinkedIn payload consumed by `DynamicFeatureBuilder.build_features`.
`activity_days` is `linkedin_data.get("activity_days", None)`: `none` models
an absent key or a value `float(...)` cannot convert. -/
structure LinkedinData where
  basic_info : BasicInfo
  experience : List Experience
  activity_days : Option ℚ
deriving DecidableEq

/-- The four manual company fields read from `user_data`
(`user_data.get(key, "") or ""`). -/
structure UserData where
  company_name : String
  company_size : String
  annual_revenue : String
  industry : String
deriving DecidableEq

/-- `user_data` with every field missing (`{}`). -/
def emptyUserData : UserData := ⟨"", "", "", ""⟩

/-! ## feature_builder.py helpers -/

/-- `DynamicFeatureBuilder._extract_title_from_linkedin`: start from the
headline (or empty), then overwrite with the first experience entry that is
flagged current AND has a truthy (non-empty) title; a falsy/absent
`linkedin_data` yields the empty string. -/
def extract_title_from_linkedin : Option LinkedinData → String
  | none => ""
  | some d =>
    match d.experience.find? (fun e => e.is_current && e.title != "") with
    | some e => e.title
    | none => d.basic_info.headline

/-- `DynamicFeatureBuilder._safe_lower` on a string input:
`str(x).lower().strip()`. -/
def safe_lower (x : String) : List Char := stripChars (lowerChars x.data)

/-- `DynamicFeatureBuilder._parse_size_to_number`. -/
def parse_size_to_number (size_str : String) : ℤ :=
  if size_str = "" then 0
  else
    let s0 := stripChars (replaceAll "employee".data []
      (replaceAll "employees".data [] (lowerChars size_str.data)))
    let s := stripChars (replaceAll ",".data [] s0)
    if containsChar s '+' then
      match parsePyFloat (stripChars (replaceAll "+".data [] s)) with
      | some q => intTrunc q
      | none => 0
    else if containsChar s '-' then
      let a := s.takeWhile (fun c => c != '-')
      let b := (s.dropWhile (fun c => c != '-')).drop 1
      match parsePyFloat (stripChars a), parsePyFloat (stripChars b) with
      | some qa, some qb => intTrunc (qDivN (qAdd qa qb) 2)
      | _, _ => 0
    else
      match parsePyFloat s with
      | some q => intTrunc q
      | none => 0

/-- `DynamicFeatureBuilder._parse_revenue_millions`. -/
def parse_revenue_millions (revenue_str : String) : ℚ :=
  if revenue_str = "" then 0
  else
    let s0 := stripChars (upperChars revenue_str.data)
    let s1 := stripChars (replaceAll "$".data [] (replaceAll ",".data [] s0))
    let s := replaceAll "MILLION".data "M".data (replaceAll "BILLION".data "B".data s1)
    match findFirstNum s with
    | none => 0
    | some val =>
      if containsChar s 'B' then qMulZ val 1000
      else if containsChar s 'M' then val
      else val

/-- `DynamicFeatureBuilder._get_revenue_category`. -/
def get_revenue_category (revenue_millions : ℚ) : ℤ :=
  if revenue_millions < 20 then 0
  else if revenue_millions < 50 then 1
  else if revenue_millions < 100 then 2
  else if revenue_millions < 500 then 3
  else 4

/-- `DynamicFeatureBuilder._compute_activity_score`. -/
def compute_activity_score (activity_days : ℚ) : ℤ :=
  if activity_days ≤ 7 then 5
  else if activity_days ≤ 14 then 4
  else if activity_days ≤ 30 then 3
  else if activity_days ≤ 90 then 2
  else if activity_days ≤ 180 then 1
  else 0

/-! ## Seniority / department / industry flags of build_features -/

/-- `int(bool(re.search(r"\bceo\b|chief executive|president", title_l)))`. -/
def isCeoFlag (t : List Char) : ℤ :=
  b2i (containsWordB t "ceo".data || containsSub t "chief executive".data ||
       containsSub t "president".data)

/-- `re.search(r"\bchief\b|cto|cfo|cio|cro|cmo", title_l)`. -/
def isCLevelFlag (t : List Char) : ℤ :=
  b2i (containsWordB t "chief".data || containsSub t "cto".data ||
       containsSub t "cfo".data || containsSub t "cio".data ||
       containsSub t "cro".data || containsSub t "cmo".data)

/-- `re.search(r"\bevp\b|\bsvp\b|executive vice president|senior vice president", title_l)`. -/
def isEvpSvpFlag (t : List Char) : ℤ :=
  b2i (containsWordB t "evp".data || containsWordB t "svp".data ||
       containsSub t "executive vice president".data ||
       containsSub t "senior vice president".data)

/-- `re.search(r"vice president|\bvp\b|\bv\.p\.\b", title_l)`. -/
def isVpFlag (t : List Char) : ℤ :=
  b2i (containsSub t "vice president".data || containsWordB t "vp".data ||
       containsVpDot t)

/-- `re.search(r"director|head of", title_l)`. -/
def isDirectorFlag (t : List Char) : ℤ :=
  b2i (containsSub t "director".data || containsSub t "head of".data)

/-- `re.search(r"manager|lead|supervisor", title_l)`. -/
def isManagerFlag (t : List Char) : ℤ :=
  b2i (containsSub t "manager".data || containsSub t "lead".data ||
       containsSub t "supervisor".data)

/-- `re.search(r"officer|avp|assistant vice president", title_l)`. -/
def isOfficerFlag (t : List Char) : ℤ :=
  b2i (containsSub t "officer".data || containsSub t "avp".data ||
       containsSub t "assistant vice president".data)

/-- `re.search(r"lend|mortgage|loan|credit|origination|abl", title_l)`. -/
def inLendingFlag (t : List Char) : ℤ :=
  b2i (containsSub t "lend".data || containsSub t "mortgage".data ||
       containsSub t "loan".data || containsSub t "credit".data ||
       containsSub t "origination".data || containsSub t "abl".data)

/-- `re.search(r"tech|technology|it|digital|data|analytics|ai|software", title_l)`. -/
def inTechFlag (t : List Char) : ℤ :=
  b2i (containsSub t "tech".data || containsSub t "technology".data ||
       containsSub t "it".data || containsSub t "digital".data ||
       containsSub t "data".data || containsSub t "analytics".data ||
       containsSub t "ai".data || containsSub t "software".data)

/-- `re.search(r"operat|process|delivery|service|support", title_l)`. -/
def inOperationsFlag (t : List Char) : ℤ :=
  b2i (containsSub t "operat".data || containsSub t "process".data ||
       containsSub t "delivery".data || containsSub t "service".data ||
       containsSub t "support".data)

/-- `re.search(r"risk|compliance|security|audit", title_l)`. -/
def inRiskFlag (t : List Char) : ℤ :=
  b2i (containsSub t "risk".data || containsSub t "compliance".data ||
       containsSub t "security".data || containsSub t "audit".data)

/-- `re.search(r"finance|fpa|treasury", title_l)`. -/
def inFinanceFlag (t : List Char) : ℤ :=
  b2i (containsSub t "finance".data || containsSub t "fpa".data ||
       containsSub t "treasury".data)

/-- `re.search(r"strategy|transformation|innovation|growth", title_l)`. -/
def inStrategyFlag (t : List Char) : ℤ :=
  b2i (containsSub t "strategy".data || containsSub t "transformation".data ||
       containsSub t "innovation".data || containsSub t "growth".data)

/-- `int("consumer" in industry_l and "lend" in industry_l)`. -/
def isConsumerLendingFlag (il : List Char) : ℤ :=
  b2i (containsSub il "consumer".data && containsSub il "lend".data)

/-- `int("commercial" in industry_l or "corporate banking" in industry_l)`. -/
def isCommercialBankingFlag (il : List Char) : ℤ :=
  b2i (containsSub il "commercial".data || containsSub il "corporate banking".data)

/-- `int("retail" in industry_l or "personal banking" in industry_l)`. -/
def isRetailBankingFlag (il : List Char) : ℤ :=
  b2i (containsSub il "retail".data || containsSub il "personal banking".data)

/-- `int("fintech" in industry_l or "digital bank" in industry_l)`. -/
def isFintechFlag (il : List Char) : ℤ :=
  b2i (containsSub il "fintech".data || containsSub il "digital bank".data)

/-- `int("credit union" in industry_l or "cooperative" in industry_l)`. -/
def isCreditUnionFlag (il : List Char) : ℤ :=
  b2i (containsSub il "credit union".data || containsSub il "cooperative".data)

/-! ## Size / revenue / activity derived features of build_features -/

/-- `int(51 <= size_numeric <= 200)`. -/
def size_51_200F (n : ℤ) : ℤ := b2i (decide (51 ≤ n ∧ n ≤ 200))

/-- `int(201 <= size_numeric <= 500)`. -/
def size_201_500F (n : ℤ) : ℤ := b2i (decide (201 ≤ n ∧ n ≤ 500))

/-- `int(501 <= size_numeric <= 1000)`. -/
def size_501_1000F (n : ℤ) : ℤ := b2i (decide (501 ≤ n ∧ n ≤ 1000))

/-- `int(1001 <= size_numeric <= 5000)`. -/
def size_1001_5000F (n : ℤ) : ℤ := b2i (decide (1001 ≤ n ∧ n ≤ 5000))

/-- `int(size_numeric >= 5000)`. -/
def size_5000_plusF (n : ℤ) : ℤ := b2i (decide (5000 ≤ n))

/-- The `Size_Score` conditional chain of `build_features`. -/
def sizeScoreF (n : ℤ) : ℤ :=
  if 5000 ≤ n then 5
  else if 1001 ≤ n then 4
  else if 501 ≤ n then 3
  else if 201 ≤ n then 2
  else if 51 ≤ n then 1
  else 0

/-- The `Revenue_Score` conditional chain of `build_features`. -/
def revenueScoreF (r : ℚ) : ℤ :=
  if 500 ≤ r then 5
  else if 100 ≤ r then 4
  else if 50 ≤ r then 3
  else if 20 ≤ r then 2
  else if 0 < r then 1
  else 0

/-- `np.clip(x, 0, 180)`. -/
def clip0180 (x : ℚ) : ℚ := min (max x 0) 180

/-- `int(activity_days_final <= 7)`. -/
def isActiveWeekF (a : ℚ) : ℤ := b2i (decide (a ≤ 7))

/-- `int(activity_days_final <= 30)`. -/
def isActiveMonthF (a : ℚ) : ℤ := b2i (decide (a ≤ 30))

/-! ## The feature row -/

/-- The single-row DataFrame `build_features` returns (its 38 columns, in
source order). -/
structure FeatureRow where
  is_ceo : ℤ
  is_c_level : ℤ
  is_evp_svp : ℤ
  is_vp : ℤ
  is_director : ℤ
  is_manager : ℤ
  is_officer : ℤ
  in_lending : ℤ
  in_tech : ℤ
  in_operations : ℤ
  in_risk : ℤ
  in_finance : ℤ
  in_strategy : ℤ
  designation_length : ℤ
  designation_word_count : ℤ
  seniority_score : ℤ
  dept_score : ℤ
  size_numeric : ℤ
  size_51_200 : ℤ
  size_201_500 : ℤ
  size_501_1000 : ℤ
  size_1001_5000 : ℤ
  size_5000_plus : ℤ
  revenue_millions : ℚ
  revenue_category : ℤ
  activity_days : ℚ
  is_active_week : ℤ
  is_active_month : ℤ
  is_consumer_lending : ℤ
  is_commercial_banking : ℤ
  is_retail_banking : ℤ
  is_fintech : ℤ
  is_credit_union : ℤ
  Desig_Score : ℤ
  Size_Score : ℤ
  Revenue_Score : ℤ
  Activity_Score : ℤ
  activity_missing : ℤ
deriving DecidableEq

/-- `DynamicFeatureBuilder.build_features` (the feature-row computation;
the trailing reindex against `model_feature_names` and the debug dict are
modelled separately by the predictor's alignment).  `user_data = none`
models the Python default `None`, replaced by `{}`. -/
def build_features (linkedin_data : Option LinkedinData)
    (user_data : Option UserData) : FeatureRow :=
  let ud := user_data.getD emptyUserData
  let title := extract_title_from_linkedin linkedin_data
  let title_l := safe_lower title
  let industry_l := safe_lower ud.industry
  let is_ceo := isCeoFlag title_l
  let is_c_level := isCLevelFlag title_l
  let is_evp_svp := isEvpSvpFlag title_l
  let is_vp := isVpFlag title_l
  let is_director := isDirectorFlag title_l
  let is_manager := isManagerFlag title_l
  let is_officer := isOfficerFlag title_l
  let in_lending := inLendingFlag title_l
  let in_tech := inTechFlag title_l
  let in_operations := inOperationsFlag title_l
  let in_risk := inRiskFlag title_l
  let in_finance := inFinanceFlag title_l
  let in_strategy := inStrategyFlag title_l
  let designation_length : ℤ := title_l.length
  let designation_word_count : ℤ := if title_l = [] then 0 else splitCount title_l
  let seniority_score :=
    is_ceo * 5 + is_c_level * 4 + is_evp_svp * 3 + is_vp * 2 +
    is_director * 2 + is_manager * 1 + is_officer * 1
  let dept_score :=
    in_lending * 2 + in_finance * 2 + in_risk * 2 + in_strategy * 1 +
    in_operations * 1 + in_tech * 1
  let size_numeric := parse_size_to_number ud.company_size
  let revenue_millions := parse_revenue_millions ud.annual_revenue
  let revenue_category := get_revenue_category revenue_millions
  let activity_days_raw : Option ℚ := linkedin_data.bind LinkedinData.activity_days
  let activity_missing : ℤ := match activity_days_raw with | none => 1 | some _ => 0
  let activity_days_final : ℚ :=
    clip0180 (match activity_days_raw with | none => 30 | some q => q)
  { is_ceo := is_ceo
    is_c_level := is_c_level
    is_evp_svp := is_evp_svp
    is_vp := is_vp
    is_director := is_director
    is_manager := is_manager
    is_officer := is_officer
    in_lending := in_lending
    in_tech := in_tech
    in_operations := in_operations
    in_risk := in_risk
    in_finance := in_finance
    in_strategy := in_strategy
    designation_length := designation_length
    designation_word_count := designation_word_count
    seniority_score := seniority_score
    dept_score := dept_score
    size_numeric := size_numeric
    size_51_200 := size_51_200F size_numeric
    size_201_500 := size_201_500F size_numeric
    size_501_1000 := size_501_1000F size_numeric
    size_1001_5000 := size_1001_5000F size_numeric
    size_5000_plus := size_5000_plusF size_numeric
    revenue_millions := revenue_millions
    revenue_category := revenue_category
    activity_days := activity_days_final
    is_active_week := isActiveWeekF activity_days_final
    is_active_month := isActiveMonthF activity_days_final
    is_consumer_lending := isConsumerLendingFlag industry_l
    is_commercial_banking := isCommercialBankingFlag industry_l
    is_retail_banking := isRetailBankingFlag industry_l
    is_fintech := isFintechFlag industry_l
    is_credit_union := isCreditUnionFlag industry_l
    Desig_Score := seniority_score + dept_score
    Size_Score := sizeScoreF size_numeric
    Revenue_Score := revenueScoreF revenue_millions
    Activity_Score := compute_activity_score activity_days_final
    activity_missing := activity_missing }

/-! ## model_predictor.py -/

/-- Python `d.get(k)` on a dict modelled as an association list
(first binding wins; lists built by `dictInsert` are duplicate-free). -/
def alGet {α : Type} (d : List (String × α)) (k : String) : Option α :=
  (d.find? (fun p => p.1 == k)).map Prod.snd

/-- Python `d[k] = v`: overwrite the value in place when the key exists
(keeping its position, as Python dicts do), else append the new binding. -/
def dictInsert {α : Type} (d : List (String × α)) (k : String) (v : α) :
    List (String × α) :=
  if d.any (fun p => p.1 == k) then
    d.map (fun p => if p.1 == k then (k, v) else p)
  else d ++ [(k, v)]

/-- Numeric coercion of one DataFrame cell in `_align_features`:
`pd.to_numeric(..., errors="coerce").fillna(0)` applied to a looked-up
column (`none` = column absent, filled with 0 beforehand). -/
def to_numeric_fill0 : Option (Option ℚ) → ℚ
  | some (some q) => q
  | some none => 0
  | none => 0

/-- `ModelPredictor._align_features`: add a 0 column for every expected
feature missing from `X`, keep exactly the expected columns in manifest
order, and coerce each value to a number (NaN → 0). -/
def align_features (feature_names : List String)
    (X : List (String × Option ℚ)) : List (String × ℚ) :=
  feature_names.map (fun col => (col, to_numeric_fill0 (alGet X col)))

/-- `np.max` on the probability row (0 on an empty row, which numpy would
reject; `predict_proba` always yields at least one class). -/
def np_max (l : List ℚ) : ℚ := l.max?.getD 0

/-- `np.argmax`: index of the first occurrence of the maximum. -/
def np_argmax (l : List ℚ) : Nat := l.indexOf (np_max l)

/-- Python `round(x)` on an exact rational: round to the nearest integer,
ties to the even integer (banker's rounding, as Python `round` does).
`x.num / x.den` with integer `/` is `⌊x⌋` (`Rat.floor_def`), and `r` is
twice the numerator of the fractional part. -/
def pyRound (x : ℚ) : ℤ :=
  let f := x.num / (x.den : ℤ)
  let r := 2 * (x.num - f * (x.den : ℤ))
  if r < (x.den : ℤ) then f
  else if (x.den : ℤ) < r then f + 1
  else if f % 2 = 0 then f else f + 1

/-- Python `round(x, 2)`: round to two decimal places. -/
def round2 (x : ℚ) : ℚ := mkRat (pyRound (qMulZ x 100)) 100

/-- The manifest's `reverse_mapping` (stringified class index → label). -/
def ReverseMapping : Type := List (String × String)

/-- `self.reverse_mapping.get(str(class_idx), str(class_idx))`: the key
under which class `idx` appears in the probability distribution. -/
def resolvedLabel (rm : ReverseMapping) (idx : Nat) : String :=
  (alGet rm (toString idx)).getD (toString idx)

/-- The `for class_idx, p in enumerate(probs)` loop filling `prob_dist`. -/
def buildDistAux (rm : ReverseMapping) :
    Nat → List ℚ → List (String × ℚ) → List (String × ℚ)
  | _, [], d => d
  | i, p :: ps, d => buildDistAux rm (i + 1) ps (dictInsert d (resolvedLabel rm i) p)

/-- The `prob_dist` dict of `ModelPredictor.predict`. -/
def build_prob_dist (rm : ReverseMapping) (probs : List ℚ) : List (String × ℚ) :=
  buildDistAux rm 0 probs []

/-- The successful-path result dict of `ModelPredictor.predict`
(`top_reasons` is explanation-only and out of scope of the claims). -/
structure PredOk where
  priority : String
  confidence : ℚ
  score : ℤ
  probability_distribution : List (String × ℚ)
deriving DecidableEq

/-- The successful branch of `ModelPredictor.predict` applied to the
probability row `probs` returned by `predict_proba`. -/
def predictOk (rm : ReverseMapping) (probs : List ℚ) : PredOk :=
  let pred_class := np_argmax probs
  let confidence := np_max probs
  let pred_label := (alGet rm (toString pred_class)).getD "UNKNOWN"
  { priority := pred_label
    confidence := round2 (qMulZ confidence 100)
    score := pyRound (qMulZ confidence 100)
    probability_distribution := build_prob_dist rm probs }

/-- Outcome of `ModelPredictor.predict`: either the error dict
`{"error": ...}` (no label) or a result dict. -/
inductive PredictOutcome
  | err (msg : String)
  | ok (result : PredOk)
deriving DecidableEq

/-- `ModelPredictor.predict` downstream of alignment: `probsResult` is the
outcome of the guarded `self.model.predict_proba(X_aligned)[0]` call —
`Except.error e` models the classifier raising exception `e`, which the
`try/except` turns into the error dict. -/
def predict (rm : ReverseMapping) (probsResult : Except String (List ℚ)) :
    PredictOutcome :=
  match probsResult with
  | .error e => .err ("Model returned no prediction: " ++ e)
  | .ok probs => .ok (predictOk rm probs)

/-! ## Reference functions used to settle claims about title extraction -/

/-- Title extraction as claim C2 words it (spec side of the comparison):
prefer the experience entry flagged `is_current`; if none flagged current,
the FIRST experience entry; if no experience at all, the headline; else
the empty string. -/
def titleClaimC2 : Option LinkedinData → String
  | none => ""
  | some d =>
    match d.experience.find? (fun e => e.is_current) with
    | some e => e.title
    | none =>
      match d.experience.head? with
      | some e => e.title
      | none => d.basic_info.headline

/-- First experience entry that is flagged current and has a non-empty
title (the fallback chain the code actually implements). -/
def firstCurrentTitled : List Experience → Option String
  | [] => none
  | e :: es =>
    if e.is_current = true ∧ e.title ≠ "" then some e.title
    else firstCurrentTitled es

/-! ## Supporting lemmas -/

/-- The `for e in exp` loop of `_extract_title_from_linkedin` is the
`firstCurrentTitled` scan. -/
theorem find_title_eq_firstCurrentTitled (l : List Experience) :
    (l.find? (fun e => e.is_current && e.title != "")).map Experience.title =
      firstCurrentTitled l := by
  induction l with
  | nil => rfl
  | cons e es ih =>
    cases hb : (e.is_current && e.title != "") with
    | true =>
      rw [@List.find?_cons_of_pos _ (fun x => x.is_current && x.title != "") e es hb]
      simp only [firstCurrentTitled]
      rw [if_pos]
      · rfl
      · simp only [Bool.and_eq_true] at hb
        exact ⟨hb.1, by simpa using hb.2⟩
    | false =>
      rw [@List.find?_cons_of_neg _ (fun x => x.is_current && x.title != "") e es
        (by simp [hb])]
      simp only [firstCurrentTitled]
      rw [if_neg, ih]
      intro hc
      simp [hc.1, bne_iff_ne, hc.2] at hb

/-- `qAdd` is ordinary rational addition. -/
theorem qAdd_eq (a b : ℚ) : qAdd a b = a + b := by
  unfold qAdd
  rw [Rat.add_def, Rat.normalize_eq_mkRat]

/-- `qMulZ` is ordinary multiplication by an integer. -/
theorem qMulZ_eq (a : ℚ) (k : ℤ) : qMulZ a k = a * (k : ℚ) := by
  unfold qMulZ
  rw [Rat.mul_eq_mkRat]
  simp

/-- `qDivN` is ordinary division by a nonzero natural number. -/
theorem qDivN_eq (a : ℚ) (n : ℕ) (h : n ≠ 0) : qDivN a n = a / (n : ℚ) := by
  unfold qDivN
  conv_rhs => rw [← Rat.num_div_den a]
  rw [Rat.mkRat_eq_div, div_div]
  push_cast
  rfl

/-- `pyRound` never rounds below the floor. -/
theorem floor_le_pyRound (x : ℚ) : ⌊x⌋ ≤ pyRound x := by
  unfold pyRound
  rw [← Rat.floor_def]
  dsimp only
  split_ifs <;> omega

/-- `pyRound` never rounds above the ceiling. -/
theorem pyRound_le_ceil (x : ℚ) : pyRound x ≤ ⌈x⌉ := by
  unfold pyRound
  rw [← Rat.floor_def]
  have hd : (0 : ℤ) < (x.den : ℤ) := by exact_mod_cast x.pos
  have key : x.num - ⌊x⌋ * (x.den : ℤ) ≠ 0 → ⌊x⌋ + 1 ≤ ⌈x⌉ := by
    intro hne
    by_contra hcon
    push_neg at hcon
    have hcf : ⌈x⌉ ≤ ⌊x⌋ := by omega
    have hxle : x ≤ ((⌊x⌋ : ℤ) : ℚ) :=
      le_trans (Int.le_ceil x) (by exact_mod_cast hcf)
    have hx : x = ((⌊x⌋ : ℤ) : ℚ) := le_antisymm hxle (Int.floor_le x)
    apply hne
    rw [show x.num = ⌊x⌋ by rw [hx]; simp,
        show x.den = 1 by rw [hx]; simp]
    ring
  dsimp only
  split_ifs with h1 h2 h3 <;>
    first
      | exact Int.floor_le_ceil x
      | (exact key (by omega))

/-- The maximum `np.max` takes over a nonempty row is attained in the row. -/
theorem np_max_mem (l : List ℚ) (h : l ≠ []) : np_max l ∈ l := by
  unfold np_max
  cases hm : l.max? with
  | none => simp_all
  | some a => simpa using List.max?_mem (fun _ _ => max_choice _ _) hm

/-- Inserting a key absent from the dict appends the binding. -/
theorem dictInsert_fresh {α : Type} (d : List (String × α)) (k : String) (v : α)
    (h : ∀ p ∈ d, p.1 ≠ k) : dictInsert d k v = d ++ [(k, v)] := by
  unfold dictInsert
  rw [if_neg]
  intro hc
  simp only [List.any_eq_true] at hc
  obtain ⟨p, hp, he⟩ := hc
  exact h p hp (by simpa using he)

/-- When the resolved labels of the remaining classes are fresh and
pairwise distinct, the `prob_dist` loop appends one binding per class. -/
theorem buildDistAux_eq (rm : ReverseMapping) (ps : List ℚ) :
    ∀ (i : Nat) (d : List (String × ℚ)),
      (d.map Prod.fst ++ (ps.enumFrom i).map (fun x => resolvedLabel rm x.1)).Nodup →
      buildDistAux rm i ps d =
        d ++ (ps.enumFrom i).map (fun x => (resolvedLabel rm x.1, x.2)) := by
  induction ps with
  | nil =>
    intro i d _
    simp [buildDistAux]
  | cons p ps ih =>
    intro i d h
    simp only [List.enumFrom, List.map_cons] at h ⊢
    simp only [buildDistAux]
    have hfresh : ∀ q ∈ d, q.1 ≠ resolvedLabel rm i := by
      intro q hq hqe
      rcases List.nodup_append.mp h with ⟨-, -, hdisj⟩
      exact hdisj (List.mem_map_of_mem Prod.fst hq) (by rw [hqe]; exact List.mem_cons_self _ _)
    have hnodup : ((d ++ [(resolvedLabel rm i, p)]).map Prod.fst ++
        (ps.enumFrom (i + 1)).map (fun x => resolvedLabel rm x.1)).Nodup := by
      simpa using h
    rw [dictInsert_fresh d (resolvedLabel rm i) p hfresh, ih (i + 1) _ hnodup]
    simp

/-! ## Claims -/

/-- Claim C2 (counterexample).  The claim's fallback order ("if no entry is
flagged current, the first experience entry") disagrees with the code on a
profile whose only experience entry is not flagged current: the code keeps
the headline, while the claim demands the first experience title. -/
theorem C2_counterexample :
    extract_title_from_linkedin
        (some ⟨⟨"headline text"⟩, [⟨"first exp title", false⟩], none⟩) ≠
      titleClaimC2
        (some ⟨⟨"headline text"⟩, [⟨"first exp title", false⟩], none⟩) := by
  decide

/-- Claim C2 (amended).  The title used for feature derivation is the first
experience entry flagged `is_current` that has a non-empty title; if there
is no such entry (in particular, whenever no entry is flagged current, even
if experience entries exist), the profile's headline text is used; for an
absent profile the title is the empty string.  There is no fallback to the
first experience entry. -/
theorem C2_main (d : Option LinkedinData) :
    extract_title_from_linkedin d =
      (match d with
       | none => ""
       | some dd => (firstCurrentTitled dd.experience).getD dd.basic_info.headline) := by
  cases d with
  | none => rfl
  | some dd =>
    simp only [extract_title_from_linkedin]
    rw [← find_title_eq_firstCurrentTitled]
    cases h : dd.experience.find? (fun e => e.is_current && e.title != "") <;>
      simp [h]

/-- Claim C2 (witness): the amended title rule at a concrete profile whose
current experience entry has a non-empty title. -/
theorem C2_witness :
    extract_title_from_linkedin
        (some ⟨⟨"fallback headline"⟩, [⟨"Chief Financial Officer", true⟩], none⟩) =
      (firstCurrentTitled [⟨"Chief Financial Officer", true⟩]).getD "fallback headline" :=
  C2_main (some ⟨⟨"fallback headline"⟩, [⟨"Chief Financial Officer", true⟩], none⟩)

/-- Claim C3 (counterexample).  Size parsing maps `"5000"` to 5000, and at
`size_numeric = 5000` both the 1001–5000 flag (`1001 <= 5000 <= 5000`) and
the 5000+ flag (`5000 >= 5000`) are 1, so the five bucket flags are not
mutually exclusive. -/
theorem C3_counterexample :
    parse_size_to_number "5000" = 5000 ∧
    size_51_200F (parse_size_to_number "5000") +
      size_201_500F (parse_size_to_number "5000") +
      size_501_1000F (parse_size_to_number "5000") +
      size_1001_5000F (parse_size_to_number "5000") +
      size_5000_plusF (parse_size_to_number "5000") = 2 := by
  decide

/-- Claim C3 (amended).  For every integer `size_numeric` other than 5000,
at most one of the five bucket flags is 1; at exactly 5000 both
`size_1001_5000` and `size_5000_plus` are set. -/
theorem C3_main (n : ℤ) (h : n ≠ 5000) :
    size_51_200F n + size_201_500F n + size_501_1000F n +
      size_1001_5000F n + size_5000_plusF n ≤ 1 := by
  simp only [size_51_200F, size_201_500F, size_501_1000F, size_1001_5000F,
    size_5000_plusF, b2i]
  split_ifs <;> simp_all <;> omega

/-- Claim C3 (witness): the amended mutual-exclusion bound at the parsed
size `"201-500 employees"` (which is 350, not 5000). -/
theorem C3_witness :
    size_51_200F (parse_size_to_number "201-500 employees") +
      size_201_500F (parse_size_to_number "201-500 employees") +
      size_501_1000F (parse_size_to_number "201-500 employees") +
      size_1001_5000F (parse_size_to_number "201-500 employees") +
      size_5000_plusF (parse_size_to_number "201-500 employees") ≤ 1 :=
  C3_main (parse_size_to_number "201-500 employees") (by decide)

/-- Claim C4 (counterexample).  The claim's Activity_Score thresholds
(≤7 top, ≤30 second, ≤60, ≤120, else bottom) would place 14 and 30 in the
same (second) bucket, and 60 and 90 in different buckets; the code does the
opposite (scores 4 vs 3, and 2 vs 2), because its actual thresholds are
≤7, ≤14, ≤30, ≤90, ≤180. -/
theorem C4_counterexample :
    compute_activity_score 14 ≠ compute_activity_score 30 ∧
    compute_activity_score 60 = compute_activity_score 90 := by
  decide

/-- Claim C4 (amended).  `is_active_week` is 1 iff activity_days ≤ 7 and
`is_active_month` is 1 iff activity_days ≤ 30, as claimed; but
Activity_Score is the six-bucket ordinal with thresholds ≤7 → 5, ≤14 → 4,
≤30 → 3, ≤90 → 2, ≤180 → 1, else 0 (higher score for more-recent
activity), not the claimed ≤7/≤30/≤60/≤120 five-bucket scheme. -/
theorem C4_main (a : ℚ) :
    (isActiveWeekF a = 1 ↔ a ≤ 7) ∧
    (isActiveMonthF a = 1 ↔ a ≤ 30) ∧
    (compute_activity_score a = 5 ↔ a ≤ 7) ∧
    (compute_activity_score a = 4 ↔ 7 < a ∧ a ≤ 14) ∧
    (compute_activity_score a = 3 ↔ 14 < a ∧ a ≤ 30) ∧
    (compute_activity_score a = 2 ↔ 30 < a ∧ a ≤ 90) ∧
    (compute_activity_score a = 1 ↔ 90 < a ∧ a ≤ 180) ∧
    (compute_activity_score a = 0 ↔ 180 < a) := by
  refine ⟨?_, ?_, ?_, ?_, ?_, ?_, ?_, ?_⟩ <;>
  · simp only [isActiveWeekF, isActiveMonthF, compute_activity_score, b2i,
      decide_eq_true_eq]
    split_ifs <;> norm_num <;>
      first
        | linarith
        | (constructor <;> linarith)
        | (rintro ⟨h1, h2⟩; linarith)
        | (intro h1; linarith)

/-- Claim C4 (witness): the amended threshold characterization at
`activity_days = 25`. -/
theorem C4_witness :
    (isActiveWeekF 25 = 1 ↔ (25 : ℚ) ≤ 7) ∧
    (isActiveMonthF 25 = 1 ↔ (25 : ℚ) ≤ 30) ∧
    (compute_activity_score 25 = 5 ↔ (25 : ℚ) ≤ 7) ∧
    (compute_activity_score 25 = 4 ↔ 7 < (25 : ℚ) ∧ (25 : ℚ) ≤ 14) ∧
    (compute_activity_score 25 = 3 ↔ 14 < (25 : ℚ) ∧ (25 : ℚ) ≤ 30) ∧
    (compute_activity_score 25 = 2 ↔ 30 < (25 : ℚ) ∧ (25 : ℚ) ≤ 90) ∧
    (compute_activity_score 25 = 1 ↔ 90 < (25 : ℚ) ∧ (25 : ℚ) ≤ 180) ∧
    (compute_activity_score 25 = 0 ↔ 180 < (25 : ℚ)) :=
  C4_main 25

/-- Claim C6 (counterexample).  `derive(null, {})` does NOT return a vector
where every boolean flag is 0: the missing-activity fallback of 30 days
satisfies the ≤ 30 test, so `is_active_month` is 1. -/
theorem C6_counterexample :
    (build_features none none).is_active_month ≠ 0 := by
  decide

/-- Claim C6 (amended).  `derive(null, {})` never raises (the embedded
deriver is total by construction) and returns the feature row in which
every boolean flag is 0 EXCEPT `is_active_month = 1` and
`activity_missing = 1` (the missing-activity fallback is 30 days, which is
within the month-activity threshold, and the missing-data flag records the
fallback); `size_numeric` is 0, `revenue_millions` is 0.0, and
`activity_days` is the configured fallback value 30. -/
theorem C6_main :
    build_features none none =
      { is_ceo := 0, is_c_level := 0, is_evp_svp := 0, is_vp := 0,
        is_director := 0, is_manager := 0, is_officer := 0, in_lending := 0,
        in_tech := 0, in_operations := 0, in_risk := 0, in_finance := 0,
        in_strategy := 0, designation_length := 0, designation_word_count := 0,
        seniority_score := 0, dept_score := 0, size_numeric := 0,
        size_51_200 := 0, size_201_500 := 0, size_501_1000 := 0,
        size_1001_5000 := 0, size_5000_plus := 0, revenue_millions := 0,
        revenue_category := 0, activity_days := 30, is_active_week := 0,
        is_active_month := 1, is_consumer_lending := 0,
        is_commercial_banking := 0, is_retail_banking := 0, is_fintech := 0,
        is_credit_union := 0, Desig_Score := 0, Size_Score := 0,
        Revenue_Score := 0, Activity_Score := 3, activity_missing := 1 } := by
  decide

/-- Claim C7 (confirmed).  Revenue parsing maps `"$261.9 Million"` to
261.9 million with revenue_category 3, `"$1.3 Billion"` to 1300.0 million
with revenue_category 4, and the empty string to 0.0 with category 0. -/
theorem C7_main :
    parse_revenue_millions "$261.9 Million" = 2619 / 10 ∧
    get_revenue_category (parse_revenue_millions "$261.9 Million") = 3 ∧
    parse_revenue_millions "$1.3 Billion" = 1300 ∧
    get_revenue_category (parse_revenue_millions "$1.3 Billion") = 4 ∧
    parse_revenue_millions "" = 0 ∧
    get_revenue_category (parse_revenue_millions "") = 0 := by
  have h : (2619 : ℚ) / 10 = mkRat 2619 10 := by
    rw [Rat.mkRat_eq_div]; norm_num
  rw [h]
  decide

/-- Claim C8 (confirmed).  The VP keyword match is word-boundary precise:
a profile whose current title is "VP of Development" gets `is_vp = 1`,
while "Senior Software Developer" gets `is_vp = 0`. -/
theorem C8_main :
    (build_features (some ⟨⟨""⟩, [⟨"VP of Development", true⟩], none⟩) none).is_vp = 1 ∧
    (build_features (some ⟨⟨""⟩, [⟨"Senior Software Developer", true⟩], none⟩) none).is_vp = 0 := by
  decide

/-- Claim C1 (counterexample).  The reported confidence is a percentage,
not a probability: on the probability row `[1/4, 3/4]` the result's
confidence is 75, which is neither in `[0, 1]` nor equal to the maximum
(3/4) of the reported probability distribution. -/
theorem C1_counterexample :
    (predictOk [("0", "COLD"), ("1", "COOL")] [mkRat 1 4, mkRat 3 4]).confidence = 75 ∧
    ¬ ((predictOk [("0", "COLD"), ("1", "COOL")] [mkRat 1 4, mkRat 3 4]).confidence ≤ 1) ∧
    (predictOk [("0", "COLD"), ("1", "COOL")] [mkRat 1 4, mkRat 3 4]).probability_distribution =
      [("COLD", mkRat 1 4), ("COOL", mkRat 3 4)] := by
  decide

/-- Claim C1 (amended).  For every nonempty probability row with entries in
`[0, 1]`: the reported confidence is the maximum probability expressed as a
percentage rounded to two decimals (`round(max * 100, 2)`), hence lies in
`[0, 100]` rather than `[0, 1]`; the maximum probability is the probability
of the arg-max class; and the reported label is the manifest's reverse
mapping of the arg-max class index (with the "UNKNOWN" fallback). -/
theorem C1_main (rm : ReverseMapping) (probs : List ℚ) (hne : probs ≠ [])
    (hp : ∀ p ∈ probs, 0 ≤ p ∧ p ≤ 1) :
    (predictOk rm probs).confidence = round2 (qMulZ (np_max probs) 100) ∧
    0 ≤ (predictOk rm probs).confidence ∧
    (predictOk rm probs).confidence ≤ 100 ∧
    probs[np_argmax probs]? = some (np_max probs) ∧
    (predictOk rm probs).priority =
      (alGet rm (toString (np_argmax probs))).getD "UNKNOWN" := by
  have hmem := np_max_mem probs hne
  have hb := hp _ hmem
  have hlt : probs.indexOf (np_max probs) < probs.length :=
    List.indexOf_lt_length.mpr hmem
  refine ⟨rfl, ?_, ?_, ?_, rfl⟩
  · show (0 : ℚ) ≤ round2 (qMulZ (np_max probs) 100)
    unfold round2
    rw [Rat.mkRat_eq_div]
    apply div_nonneg _ (by norm_num)
    have h1 : (0 : ℤ) ≤ pyRound (qMulZ (qMulZ (np_max probs) 100) 100) := by
      refine le_trans ?_ (floor_le_pyRound _)
      rw [qMulZ_eq, qMulZ_eq]
      exact Int.floor_nonneg.mpr
        (mul_nonneg (mul_nonneg hb.1 (by norm_num)) (by norm_num))
    exact_mod_cast h1
  · show round2 (qMulZ (np_max probs) 100) ≤ 100
    unfold round2
    rw [Rat.mkRat_eq_div]
    push_cast
    rw [div_le_iff₀ (by norm_num : (0 : ℚ) < 100)]
    have h2 : pyRound (qMulZ (qMulZ (np_max probs) 100) 100) ≤ 10000 := by
      refine le_trans (pyRound_le_ceil _) ?_
      rw [qMulZ_eq, qMulZ_eq]
      have hle : np_max probs * 100 * 100 ≤ ((10000 : ℤ) : ℚ) := by
        push_cast
        nlinarith [hb.2]
      calc ⌈np_max probs * 100 * 100⌉ ≤ ⌈((10000 : ℤ) : ℚ)⌉ := Int.ceil_le_ceil hle
        _ = 10000 := Int.ceil_intCast 10000
    calc ((pyRound (qMulZ (qMulZ (np_max probs) 100) 100) : ℤ) : ℚ)
        ≤ ((10000 : ℤ) : ℚ) := by exact_mod_cast h2
      _ = 100 * 100 := by norm_num
  · show probs[probs.indexOf (np_max probs)]? = some (np_max probs)
    rw [List.getElem?_eq_getElem hlt, List.getElem_indexOf hlt]

/-- Claim C1 (witness): the amended statement at the one-class row `[1]`
with mapping `{"0": "COLD"}`. -/
theorem C1_witness :
    (predictOk [("0", "COLD")] [(1 : ℚ)]).confidence =
      round2 (qMulZ (np_max [(1 : ℚ)]) 100) ∧
    0 ≤ (predictOk [("0", "COLD")] [(1 : ℚ)]).confidence ∧
    (predictOk [("0", "COLD")] [(1 : ℚ)]).confidence ≤ 100 ∧
    [(1 : ℚ)][np_argmax [(1 : ℚ)]]? = some (np_max [(1 : ℚ)]) ∧
    (predictOk [("0", "COLD")] [(1 : ℚ)]).priority =
      (alGet [("0", "COLD")] (toString (np_argmax [(1 : ℚ)]))).getD "UNKNOWN" :=
  C1_main [("0", "COLD")] [(1 : ℚ)] (by decide) (by decide)

/-- Claim C5 (confirmed).  Alignment emits, for every manifest name in
manifest order, the input value when present (coerced to a number, with
non-coercible values becoming 0) and 0 when absent; it keeps no key outside
the manifest and produces exactly `len(manifest.feature_names)` entries. -/
theorem C5_main (names : List String) (X : List (String × Option ℚ)) :
    (align_features names X).map Prod.fst = names ∧
    (align_features names X).length = names.length ∧
    (∀ p ∈ align_features names X, p.1 ∈ names) ∧
    (∀ i : Nat, (align_features names X)[i]? =
      (names[i]?).map (fun n => (n, to_numeric_fill0 (alGet X n)))) ∧
    (∀ n, n ∈ names → (n, to_numeric_fill0 (alGet X n)) ∈ align_features names X) := by
  unfold align_features
  refine ⟨?_, ?_, ?_, ?_, ?_⟩
  · induction names with
    | nil => rfl
    | cons n ns ih => simpa using ih
  · simp
  · intro p hp
    simp only [List.mem_map] at hp
    obtain ⟨n, hn, rfl⟩ := hp
    simpa using hn
  · intro i
    simp [List.getElem?_map]
  · intro n hn
    exact List.mem_map_of_mem _ hn

/-- Claim C5 (witness): alignment of a sample vector (one present feature,
one missing feature, one extra feature) against the manifest `["a", "b"]`. -/
theorem C5_witness :
    (align_features ["a", "b"]
        [("a", some (mkRat 3 1)), ("c", some (mkRat 5 1)), ("b", none)]).map Prod.fst =
      ["a", "b"] ∧
    ("a", to_numeric_fill0 (alGet
        [("a", some (mkRat 3 1)), ("c", some (mkRat 5 1)), ("b", none)] "a")) ∈
      align_features ["a", "b"]
        [("a", some (mkRat 3 1)), ("c", some (mkRat 5 1)), ("b", none)] ∧
    ("b", to_numeric_fill0 (alGet
        [("a", some (mkRat 3 1)), ("c", some (mkRat 5 1)), ("b", none)] "b")) ∈
      align_features ["a", "b"]
        [("a", some (mkRat 3 1)), ("c", some (mkRat 5 1)), ("b", none)] :=
  ⟨(C5_main ["a", "b"] _).1,
   (C5_main ["a", "b"] _).2.2.2.2 "a" (by decide),
   (C5_main ["a", "b"] _).2.2.2.2 "b" (by decide)⟩

/-- Claim C9 (confirmed).  When the classifier's probability-estimation
call raises, `predict` returns the reported failure dict (with the
exception text) and never an ok-result carrying a label; the exception is
not propagated. -/
theorem C9_main (rm : ReverseMapping) (e : String) :
    predict rm (Except.error e) =
      PredictOutcome.err ("Model returned no prediction: " ++ e) ∧
    ∀ r : PredOk, predict rm (Except.error e) ≠ PredictOutcome.ok r := by
  refine ⟨rfl, ?_⟩
  intro r h
  exact PredictOutcome.noConfusion h

/-- Claim C9 (witness): the failure path at the concrete exception text
"boom" and an arbitrary concrete ok-result. -/
theorem C9_witness :
    predict [("0", "COLD")] (Except.error "boom") =
      PredictOutcome.err ("Model returned no prediction: " ++ "boom") ∧
    predict [("0", "COLD")] (Except.error "boom") ≠
      PredictOutcome.ok (predictOk [("0", "COLD")] [(1 : ℚ)]) :=
  ⟨(C9_main [("0", "COLD")] "boom").1,
   (C9_main [("0", "COLD")] "boom").2 (predictOk [("0", "COLD")] [(1 : ℚ)])⟩

/-- Claim C10 (counterexample).  When two class indices resolve to the same
label, the dict keyed by label collapses them: with reverse mapping
`{"0": "HOT", "1": "HOT"}` and two classes, the distribution has one entry,
not one entry per class index. -/
theorem C10_counterexample :
    (predictOk [("0", "HOT"), ("1", "HOT")]
        [mkRat 1 2, mkRat 1 2]).probability_distribution.length = 1 ∧
    [mkRat 1 2, mkRat (1 : ℤ) 2].length = 2 := by
  decide

/-- Claim C10 (amended).  Provided the resolved labels of the class indices
are pairwise distinct (true of any well-formed manifest), the distribution
has exactly one entry per class index, in class order, keyed by the
resolved label; a class index missing from the reverse mapping resolves to
the decimal string of the index itself (not the "UNKNOWN" sentinel used
for the predicted label).  Without distinctness, later classes overwrite
earlier ones (see the counterexample). -/
theorem C10_main (rm : ReverseMapping) (probs : List ℚ)
    (h : ((probs.enumFrom 0).map (fun x => resolvedLabel rm x.1)).Nodup) :
    (predictOk rm probs).probability_distribution =
      (probs.enumFrom 0).map (fun x => (resolvedLabel rm x.1, x.2)) ∧
    (predictOk rm probs).probability_distribution.length = probs.length ∧
    ∀ i : Nat, alGet rm (toString i) = none → resolvedLabel rm i = toString i := by
  have h1 : (predictOk rm probs).probability_distribution =
      (probs.enumFrom 0).map (fun x => (resolvedLabel rm x.1, x.2)) := by
    show build_prob_dist rm probs = _
    unfold build_prob_dist
    simpa using buildDistAux_eq rm probs 0 [] (by simpa using h)
  refine ⟨h1, ?_, ?_⟩
  · rw [h1]
    simp
  · intro i hi
    unfold resolvedLabel
    rw [hi]
    rfl

/-- Claim C10 (witness): the amended statement for the two-class row
`[1/2, 1/2]` under the distinct mapping `{"0": "COLD", "1": "COOL"}`. -/
theorem C10_witness :
    (predictOk [("0", "COLD"), ("1", "COOL")]
        [mkRat 1 2, mkRat 1 2]).probability_distribution =
      ([mkRat 1 2, mkRat (1 : ℤ) 2].enumFrom 0).map
        (fun x => (resolvedLabel [("0", "COLD"), ("1", "COOL")] x.1, x.2)) ∧
    (predictOk [("0", "COLD"), ("1", "COOL")]
        [mkRat 1 2, mkRat 1 2]).probability_distribution.length =
      [mkRat 1 2, mkRat (1 : ℤ) 2].length ∧
    ∀ i : Nat, alGet [("0", "COLD"), ("1", "COOL")] (toString i) = none →
      resolvedLabel [("0", "COLD"), ("1", "COOL")] i = toString i :=
  C10_main [("0", "COLD"), ("1", "COOL")] [mkRat 1 2, mkRat 1 2] (by decide)

end LeadScoring
